import Mathlib

/-!
Verification development for the isshub domain layer: a shallow embedding of
the entity-validation helpers (`isshub/domain/utils/entity.py`), the in-memory
repository abstraction (`isshub/domain/utils/repository.py`) and the
`Namespace` / `Repository` bounded-context entities and repositories
(`isshub/domain/contexts/code_repository/...`).

Machine integers do not occur; Python `int` is embedded as `Int`, Python
strings as `String`, fallible code as `Except Err`.  Mutable heap state (the
self-referential `Namespace.namespace` chains, which may form genuine
reference cycles) is embedded as an explicit heap `Nat → NSObj` plus a fueled
iteration of the validator's `while` loop.
-/

namespace Isshub

/-- Embedding of Python's `uuid.UUID`: the 128-bit integer value together with
the version number exposed by `UUID.version`. -/
structure PyUUID where
  val : Nat
  version : Nat
deriving DecidableEq, Repr

/-- The error kinds the domain layer can raise: `TypeError`, `ValueError`
(from validators), attrs' `FrozenAttributeError` (on writing a frozen field),
and the per-repository `UniquenessError` / `NotFoundError` subclasses of
`RepositoryException` from `repository.py`. -/
inductive Err where
  | typeError (msg : String)
  | valueError (msg : String)
  | frozenAttributeError
  | uniquenessError (msg : String)
  | notFoundError (msg : String)
deriving DecidableEq, Repr

/-- Discriminator: true exactly on the `ValueError` constructor. -/
def Err.isValueError : Err → Bool
  | .valueError _ => true
  | _ => false

/-- Discriminator: true exactly on the `TypeError` constructor. -/
def Err.isTypeError : Err → Bool
  | .typeError _ => true
  | _ => false

/-- Discriminator: true exactly on the `UniquenessError` constructor. -/
def Err.isUniquenessError : Err → Bool
  | .uniquenessError _ => true
  | _ => false

/-- Discriminator: true exactly on the `NotFoundError` constructor. -/
def Err.isNotFoundError : Err → Bool
  | .notFoundError _ => true
  | _ => false

/-- A Python value handed to `validate_uuid` (`value: Any`): `None`, a
`uuid.UUID` instance, or any other object. -/
inductive UuidArg where
  | none
  | uuid (u : PyUUID)
  | other
deriving DecidableEq, Repr

/-- Embedding of `entity.validate_uuid` (entity.py lines 389-447):

```
if none_allowed and value is None:
    return
if not isinstance(value, UUID) or value.version != 4:
    raise TypeError(f"{display_name} must be a UUID version 4")
```
-/
def validate_uuid (value : UuidArg) (none_allowed : Bool) (display_name : String) :
    Except Err Unit :=
  if none_allowed && value == UuidArg.none then Except.ok ()
  else
    match value with
    | UuidArg.uuid u =>
        if u.version ≠ 4 then
          Except.error (Err.typeError (display_name ++ " must be a UUID version 4"))
        else Except.ok ()
    | _ => Except.error (Err.typeError (display_name ++ " must be a UUID version 4"))

/-- A Python value handed to `validate_positive_integer`: `None`, an `int`, or
any other object.  (Python `bool` is a subclass of `int`; `intLike true/false`
would be `1`/`0`, subsumed by `int` here since no claim depends on it.) -/
inductive IntArg where
  | none
  | int (n : Int)
  | other
deriving DecidableEq, Repr

/-- Embedding of `entity.validate_positive_integer` (entity.py lines 319-386):

```
if none_allowed and value is None:
    return
if not isinstance(value, int):
    raise TypeError(f"{display_name} must be a positive integer")
if value <= 0:
    raise ValueError(f"{display_name} must be a positive integer")
```
-/
def validate_positive_integer (value : IntArg) (none_allowed : Bool)
    (display_name : String) : Except Err Unit :=
  if none_allowed && value == IntArg.none then Except.ok ()
  else
    match value with
    | IntArg.int n =>
        if n ≤ 0 then
          Except.error (Err.valueError (display_name ++ " must be a positive integer"))
        else Except.ok ()
    | _ => Except.error (Err.typeError (display_name ++ " must be a positive integer"))

/-! ## Field descriptors and the frozen identifier (entity.py) -/

/-- Embedding of the `attr.ib` descriptor produced by `required_field` /
`optional_field` (entity.py lines 60-171): whether the field defaults to
`None` (optional) and whether `on_setattr = attr.setters.frozen` was
installed (`frozen=True`). -/
structure AttrIb where
  optional : Bool
  frozen : Bool
deriving DecidableEq, Repr

/-- Embedding of `required_field(field_type, frozen=...)`: no default, frozen as given. -/
def required_field (frozen : Bool) : AttrIb :=
  { optional := false, frozen := frozen }

/-- Embedding of `optional_field(field_type)`: defaults to `None`, never frozen. -/
def optional_field : AttrIb :=
  { optional := true, frozen := false }

/-- The descriptor of `BaseEntityWithIdentifier.identifier`
(entity.py line 477): `identifier: UUID = required_field(UUID, frozen=True)`. -/
def identifierField : AttrIb := required_field true

/-- An instance of any concrete entity class derived from
`BaseEntityWithIdentifier`: the (frozen) `identifier` plus the remaining
fields of the concrete class, abstracted as `rest`. -/
structure BaseEntityWithIdentifier (β : Type) where
  identifier : PyUUID
  rest : β
deriving Repr

/-- The attrs-generated `__setattr__` applied to the `identifier` field after
construction: when the descriptor carries `on_setattr = attr.setters.frozen`
(that is, `identifierField.frozen`), the write raises `FrozenAttributeError`
before any mutation; otherwise the attribute would be replaced.  Returns the
outcome together with the (unchanged on failure) instance. -/
def setIdentifier {β : Type} (e : BaseEntityWithIdentifier β) (v : PyUUID) :
    Except Err Unit × BaseEntityWithIdentifier β :=
  if identifierField.frozen then (Except.error Err.frozenAttributeError, e)
  else (Except.ok (), { e with identifier := v })

/-! ## Identity-based equality and hash (entity.py lines 499-530) -/

/-- Python's `hash` on a `uuid.UUID`, a function of the UUID's integer value
only. -/
def uuidHash (u : PyUUID) : Nat := u.val

/-- An entity instance as seen by `__eq__`/`__hash__`: its concrete class
(`self.__class__`, embedded as the class name), its identifier, and all its
other field values (which both methods ignore). -/
structure EntityObj where
  cls : String
  identifier : PyUUID
  rest : List (String × String)
deriving DecidableEq, Repr

/-- Embedding of `BaseEntityWithIdentifier.__hash__`: `return hash(self.identifier)`. -/
def entityHash (e : EntityObj) : Nat := uuidHash e.identifier

/-- Embedding of `BaseEntityWithIdentifier.__eq__`:
`return self.__class__ is other.__class__ and self.identifier == other.identifier`. -/
def entityEq (a b : EntityObj) : Bool :=
  a.cls == b.cls && a.identifier == b.identifier

/-! ## The generic in-memory repository (repository.py) -/

/-- What `AbstractInMemoryRepository` needs from its entity type parameter:
the `identifier` attribute and the `validate()` method. -/
structure EntityModel (α : Type) where
  identifier : α → PyUUID
  validate : α → Except Err Unit

/-- String rendering of a UUID used inside exception messages (an abstraction
of Python's `str(uuid)`; only injectivity-irrelevant message text). -/
def uuidStr (u : PyUUID) : String := toString u.val

/-- Embedding of `AbstractInMemoryRepository.exists` (repository.py lines 223-236):
`any(entity for entity in self._collection if entity.identifier == identifier)`. -/
def repoExists {α : Type} (M : EntityModel α) (coll : List α) (identifier : PyUUID) :
    Bool :=
  coll.any fun e => M.identifier e == identifier

/-- Embedding of `AbstractInMemoryRepository.get` (repository.py lines 268-291): first
collection member with the given identifier, else `NotFoundError`. -/
def repoGet {α : Type} (M : EntityModel α) (coll : List α) (identifier : PyUUID) :
    Except Err α :=
  match coll.find? (fun e => M.identifier e == identifier) with
  | some e => Except.ok e
  | none =>
      Except.error (Err.notFoundError
        ("Unable to find one with identifier=" ++ uuidStr identifier))

/-- Embedding of `AbstractInMemoryRepository.add` (repository.py lines 238-266): validate,
check `exists(entity.identifier)`, raise `UniquenessError` on collision, else
insert.  The collection (unchanged at every raise point, since the source
mutates only in the final `self._collection.add(entity)`) is returned
alongside the outcome. -/
def repoAdd {α : Type} (M : EntityModel α) (coll : List α) (e : α) :
    Except Err α × List α :=
  match M.validate e with
  | Except.error err => (Except.error err, coll)
  | Except.ok () =>
      if repoExists M coll (M.identifier e) then
        (Except.error (Err.uniquenessError
          ("One already exists with identifier=" ++ uuidStr (M.identifier e))), coll)
      else (Except.ok e, e :: coll)

/-- Embedding of `self._collection.remove(entity)`: removal from the set of the element
equal (same class, same identifier) to the given one. -/
def collRemove {α : Type} (M : EntityModel α) (coll : List α) (x : α) : List α :=
  coll.eraseP fun e => M.identifier e == M.identifier x

/-- Embedding of `AbstractInMemoryRepository.delete` (repository.py lines 317-329):
`entity = self.get(entity.identifier); self._collection.remove(entity)`. -/
def repoDelete {α : Type} (M : EntityModel α) (coll : List α) (e : α) :
    Except Err Unit × List α :=
  match repoGet M coll (M.identifier e) with
  | Except.error err => (Except.error err, coll)
  | Except.ok found => (Except.ok (), collRemove M coll found)

/-- Embedding of `AbstractInMemoryRepository.update` (repository.py lines 293-315):
`entity.validate(); self.delete(entity); return self.add(entity)` — for a
repository whose `add`/`delete` are the base-class ones. -/
def repoUpdate {α : Type} (M : EntityModel α) (coll : List α) (e : α) :
    Except Err α × List α :=
  match M.validate e with
  | Except.error err => (Except.error err, coll)
  | Except.ok () =>
      match repoDelete M coll e with
      | (Except.error err, c) => (Except.error err, c)
      | (Except.ok (), c) => repoAdd M c e

/-! ## The Namespace entity as a tree value
(`contexts/code_repository/entities/namespace/__init__.py`)

For repository-level reasoning, entities whose `namespace` parent chains are
acyclic (every state a repository can store) are embedded as tree values.
The base class supplying `identifier` and identity-based equality
(`BaseModelWithId` in the snapshot's import, whose behaviour the spec and
`BaseEntityWithIdentifier` give as: frozen UUID-v4 `identifier`, equality by
concrete class and identifier) contributes the `identifier` field and its
UUID-v4 validator. -/

/-- The `NamespaceKind` enum: ORGANIZATION, TEAM, GROUP. -/
inductive NamespaceKind where
  | organization
  | team
  | group
deriving DecidableEq, Repr

/-- A `Namespace` entity instance (acyclic state): fields `identifier`,
`name`, `namespace` (optional parent, embedded as `nspace` since `namespace`
is reserved in Lean), `kind`, `description`. -/
inductive Namespace where
  | mk (identifier : PyUUID) (name : String) (nspace : Option Namespace)
      (kind : NamespaceKind) (description : Option String)

/-- Field accessor for `identifier`. -/
def Namespace.identifier : Namespace → PyUUID
  | .mk i _ _ _ _ => i

/-- Field accessor for `name`. -/
def Namespace.name : Namespace → String
  | .mk _ n _ _ _ => n

/-- Field accessor for the self-referential `namespace` field. -/
def Namespace.nspace : Namespace → Option Namespace
  | .mk _ _ p _ _ => p

/-- Embedding of `Namespace.__eq__` (inherited identity-based equality): same concrete
class (always `Namespace` here) and same identifier. -/
def nsEq (a b : Namespace) : Bool :=
  a.identifier == b.identifier

/-- Python `==` on the optional `namespace` field values: `None == None` is
`True`, `None` compared with an entity is `False`, two entities compare by
`Namespace.__eq__`. -/
def optNsEq : Option Namespace → Option Namespace → Bool
  | none, none => true
  | some a, some b => nsEq a b
  | _, _ => false

/-- The `while` loop of `Namespace.validate_namespace_is_not_in_a_loop`
(namespace/__init__.py lines 98-103) on an acyclic (tree) state: walk
`parent := parent.namespace` from the node and report whether any strict
ancestor `== value`, i.e. carries identifier `vid`. -/
def Namespace.ancestorHasId : Namespace → PyUUID → Bool
  | .mk _ _ none _ _, _ => false
  | .mk _ _ (some p) _ _, vid => p.identifier == vid || p.ancestorHasId vid

/-- Embedding of `Namespace.validate_namespace_is_not_in_a_loop` (lines 74-103) on a tree
state: `if not value: return`, else raise `ValueError` when the walk from
`value` re-encounters `value`. -/
def validateNamespaceNotInLoop (value : Option Namespace) : Except Err Unit :=
  match value with
  | none => Except.ok ()
  | some v =>
      if v.ancestorHasId v.identifier then
        Except.error (Err.valueError "Namespace.namespace cannot be in a loop")
      else Except.ok ()

/-- Embedding of `Namespace.validate()`: attrs re-runs every field validator on the current
values.  In the tree embedding the type checks on `name` (str), `kind`
(NamespaceKind), `description` (Optional[str]) and `namespace`
(Optional[_Namespace]) hold by construction; what remains is the UUID-v4
check on `identifier` and the loop check on `namespace`. -/
def Namespace.validate (n : Namespace) : Except Err Unit :=
  match validate_uuid (UuidArg.uuid n.identifier) false "Namespace.identifier" with
  | Except.error e => Except.error e
  | Except.ok () => validateNamespaceNotInLoop n.nspace

/-- The `EntityModel` instance `AbstractInMemoryRepository` sees for
`Namespace` entities. -/
def nsModel : EntityModel Namespace :=
  { identifier := Namespace.identifier, validate := Namespace.validate }

/-- Embedding of `InMemoryNamespaceRepository.for_namespace`
(repositories/namespace/__init__.py lines 69-82):
`(entity for entity in self._collection if entity.namespace == namespace)`. -/
def nsForNamespace (coll : List Namespace) (ns : Option Namespace) :
    List Namespace :=
  coll.filter fun e => optNsEq e.nspace ns

/-- Embedding of `InMemoryNamespaceRepository.add` (lines 41-67): raise `UniquenessError`
when some entity in `for_namespace(entity.namespace)` shares the name, else
`super().add(entity)`. -/
def nsRepoAdd (coll : List Namespace) (e : Namespace) :
    Except Err Namespace × List Namespace :=
  if (nsForNamespace coll e.nspace).any (fun n => n.name == e.name) then
    (Except.error (Err.uniquenessError
      ("One already exists with name=" ++ e.name ++ " and namespace=...")), coll)
  else repoAdd nsModel coll e

/-- Embedding of `update` as inherited by `InMemoryNamespaceRepository`: the base-class
`update` body (`entity.validate(); self.delete(entity); return
self.add(entity)`) where dynamic dispatch resolves `self.add` to the
subclass override `nsRepoAdd` and `self.delete` to the base `delete`. -/
def nsRepoUpdate (coll : List Namespace) (e : Namespace) :
    Except Err Namespace × List Namespace :=
  match nsModel.validate e with
  | Except.error err => (Except.error err, coll)
  | Except.ok () =>
      match repoDelete nsModel coll e with
      | (Except.error err, c) => (Except.error err, c)
      | (Except.ok (), c) => nsRepoAdd c e

/-! ## The Repository entity and its repository
(`contexts/code_repository/entities/repository/__init__.py`,
`.../repositories/repository/__init__.py`) -/

/-- A `Repository` entity: `identifier` (from `BaseEntityWithIdentifier`),
`name: str`, `namespace: Namespace` (required). -/
structure RepoEntity where
  identifier : PyUUID
  name : String
  nspace : Namespace

/-- Embedding of `Repository.validate()`: in the tree embedding the `name`/`namespace`
type checks hold by construction; the UUID-v4 validator on `identifier`
remains. -/
def RepoEntity.validate (r : RepoEntity) : Except Err Unit :=
  validate_uuid (UuidArg.uuid r.identifier) false "Repository.identifier"

/-- The `EntityModel` instance for `Repository` entities. -/
def rrModel : EntityModel RepoEntity :=
  { identifier := RepoEntity.identifier, validate := RepoEntity.validate }

/-- Embedding of `InMemoryRepositoryRepository.for_namespace`
(repositories/repository/__init__.py lines 64-75). -/
def rrForNamespace (coll : List RepoEntity) (ns : Namespace) : List RepoEntity :=
  coll.filter fun e => nsEq e.nspace ns

/-- Embedding of `InMemoryRepositoryRepository.add` (lines 37-62): raise `UniquenessError`
when some repository in `for_namespace(entity.namespace)` shares the name,
else `super().add(entity)`. -/
def rrRepoAdd (coll : List RepoEntity) (e : RepoEntity) :
    Except Err RepoEntity × List RepoEntity :=
  if (rrForNamespace coll e.nspace).any (fun r => r.name == e.name) then
    (Except.error (Err.uniquenessError
      ("One already exists with name=" ++ e.name ++ " and namespace=...")), coll)
  else repoAdd rrModel coll e

/-! ## The heap embedding of Namespace states
(possibly-cyclic reference graphs, for `validate_namespace_is_not_in_a_loop`)

Python `Namespace` objects are mutable references: unchecked post-construction
mutation of the `namespace` field can create arbitrary reference graphs,
including cycles.  These states are embedded as a total heap `Nat → NSObj`
(references are `Nat`), and the validator's `while` loop as a fueled
iteration: `none` means the loop has not finished within the given fuel. -/

/-- A `Namespace` object on the heap: its identifier and its `namespace`
reference (the `name`/`kind`/`description` fields are not read by `__eq__`
or by the loop validator). -/
structure NSObj where
  identifier : PyUUID
  nspace : Option Nat
deriving DecidableEq, Repr

/-- The `while` loop of `validate_namespace_is_not_in_a_loop`
(namespace/__init__.py lines 98-103), one fuel unit per iteration:

```
parent = value
while parent := parent.namespace:
    if parent == value:
        raise ValueError(f"{...}.namespace cannot be in a loop")
```

`parent == value` is the inherited identity-based `__eq__`: both are
`Namespace` instances, so it compares identifiers. -/
def loopCheckFuel (h : Nat → NSObj) (value : Nat) : Nat → Nat → Option (Except Err Unit)
  | _, 0 => none
  | parent, fuel + 1 =>
      match (h parent).nspace with
      | none => some (Except.ok ())
      | some p =>
          if (h p).identifier == (h value).identifier then
            some (Except.error (Err.valueError "Namespace.namespace cannot be in a loop"))
          else loopCheckFuel h value p fuel

/-- Embedding of `validate_namespace_is_not_in_a_loop` on a heap state: `if not value:
return` (the field holds `None`), else run the loop from `value`. -/
def validateNotInLoopFuel (h : Nat → NSObj) (value : Option Nat) (fuel : Nat) :
    Option (Except Err Unit) :=
  match value with
  | none => some (Except.ok ())
  | some v => loopCheckFuel h v v fuel

/-- Embedding of `Namespace.validate()` on a heap state: the UUID-v4 check on
`identifier` (the other field validators are type checks that hold in this
embedding), then the loop check on the `namespace` field. -/
def nsValidateFuel (h : Nat → NSObj) (r : Nat) (fuel : Nat) :
    Option (Except Err Unit) :=
  match validate_uuid (UuidArg.uuid (h r).identifier) false "Namespace.identifier" with
  | Except.error e => some (Except.error e)
  | Except.ok () => validateNotInLoopFuel h (h r).nspace fuel

/-- The loop check on the `namespace` value terminates: some fuel suffices
for the iteration to finish (returning or raising). -/
def loopCheckTerminates (h : Nat → NSObj) (value : Option Nat) : Prop :=
  ∃ fuel, (validateNotInLoopFuel h value fuel).isSome

/-- The parent chain from `parent` reaches `None` within `n` dereferences. -/
def chainReachesNone (h : Nat → NSObj) : Nat → Nat → Bool
  | _, 0 => false
  | parent, n + 1 =>
      match (h parent).nspace with
      | none => true
      | some p => chainReachesNone h p n

/-- The parent chain from `parent` meets, within `n` dereferences, an object
whose identifier is `vid` (i.e. one equal, under identity-based `__eq__`, to
the starting value of the walk). -/
def chainRevisits (h : Nat → NSObj) (vid : PyUUID) : Nat → Nat → Bool
  | _, 0 => false
  | parent, n + 1 =>
      match (h parent).nspace with
      | none => false
      | some p => (h p).identifier == vid || chainRevisits h vid p n

/-- Heap update setting the `namespace` field of the object at `r` to `None`
(breaking a link of a cycle). -/
def setNspaceNone (h : Nat → NSObj) (r : Nat) : Nat → NSObj :=
  fun x => if x = r then { h x with nspace := none } else h x

/-- Termination of `Namespace.validate()` on a heap state: some fuel suffices. -/
def nsValidateTerminates (h : Nat → NSObj) (r : Nat) : Prop :=
  ∃ fuel, (nsValidateFuel h r fuel).isSome

/-- The result `validate_uuid`/`validate()` raised a `ValueError`. -/
def raisedValueError (r : Except Err Unit) : Bool :=
  match r with
  | Except.error e => e.isValueError
  | Except.ok _ => false

/-! ## Concrete instances used as evaluation inputs -/

/-- A version-4 UUID. -/
def uuidA : PyUUID := ⟨1, 4⟩

/-- A second version-4 UUID. -/
def uuidB : PyUUID := ⟨2, 4⟩

/-- A third version-4 UUID. -/
def uuidC : PyUUID := ⟨3, 4⟩

/-- A valid root namespace. -/
def nsAcme : Namespace :=
  Namespace.mk uuidA "acme" none NamespaceKind.organization none

/-- A distinct object with the same identifier as `nsAcme` (differing
description). -/
def nsAcmeTwin : Namespace :=
  Namespace.mk uuidA "acme" none NamespaceKind.organization (some "other object")

/-- A valid root namespace distinct from `nsAcme`. -/
def nsBeta : Namespace :=
  Namespace.mk uuidB "beta" none NamespaceKind.team none

/-- A namespace with the same name as `nsAcme` but nested under `nsBeta`. -/
def nsAcmeInBeta : Namespace :=
  Namespace.mk uuidC "acme" (some nsBeta) NamespaceKind.group none

/-- The entity `nsAcme` renamed to `"beta"`: same identifier, name colliding with
`nsBeta` in the root scope. -/
def nsAcmeRenamedBeta : Namespace :=
  Namespace.mk uuidA "beta" none NamespaceKind.organization none

/-- A namespace with a different identifier but the same name and parent
scope (none) as `nsAcme`. -/
def nsAcmeDup : Namespace :=
  Namespace.mk uuidB "acme" none NamespaceKind.team none

/-- A valid `Repository` entity inside `nsAcme`. -/
def repoFoo : RepoEntity := ⟨uuidA, "webapp", nsAcme⟩

/-- A `Repository` entity with a different identifier but the same name, in a
distinct `Namespace` object carrying `nsAcme`'s identifier (the same scope
under identity-based equality). -/
def repoFooDup : RepoEntity := ⟨uuidB, "webapp", nsAcmeTwin⟩

/-- A `Repository` entity with the same name but inside `nsBeta`. -/
def repoFooInBeta : RepoEntity := ⟨uuidC, "webapp", nsBeta⟩

/-- A heap whose object 0 has parent 1, and whose chain from 1 runs
1 → 2 → 3 → 2 → 3 → ⋯: a reference cycle that does not pass through
object 1 (the value of object 0's `namespace` field). -/
def hCyc : Nat → NSObj := fun x =>
  match x with
  | 0 => ⟨⟨10, 4⟩, some 1⟩
  | 1 => ⟨⟨11, 4⟩, some 2⟩
  | 2 => ⟨⟨12, 4⟩, some 3⟩
  | 3 => ⟨⟨13, 4⟩, some 2⟩
  | _ => ⟨⟨99, 4⟩, none⟩

/-- A heap holding the three-cycle A → B → C → A at references 1, 2, 3
(object 0 unused). -/
def hABC : Nat → NSObj := fun x =>
  match x with
  | 1 => ⟨⟨11, 4⟩, some 2⟩
  | 2 => ⟨⟨12, 4⟩, some 3⟩
  | 3 => ⟨⟨13, 4⟩, some 1⟩
  | _ => ⟨⟨99, 4⟩, none⟩

/-! ## Shared lemmas -/

/-- Erasing the (unique) match of `p` from a list with at most one match
leaves a list with no match. -/
theorem any_eraseP_eq_false {α : Type} (p : α → Bool) :
    ∀ l : List α, l.countP p ≤ 1 → (l.eraseP p).any p = false := by
  intro l
  induction l with
  | nil => simp
  | cons a t ih =>
    intro h
    by_cases hpa : (p a : Bool)
    · rw [List.eraseP_cons_of_pos (p := p) hpa]
      rw [List.countP_cons_of_pos (p := p) _ hpa] at h
      have h0 : t.countP p = 0 := by omega
      rw [List.countP_eq_zero] at h0
      rw [List.any_eq_false]
      intro x hx
      exact h0 x hx
    · rw [List.eraseP_cons_of_neg (p := p) hpa]
      rw [List.countP_cons_of_neg (p := p) _ hpa] at h
      simp only [List.any_cons]
      rw [ih h]
      simp [hpa]

/-- Once the fueled loop check finishes, more fuel gives the same outcome. -/
theorem loopCheckFuel_mono (h : Nat → NSObj) (v : Nat) :
    ∀ fuel parent r, loopCheckFuel h v parent fuel = some r →
      ∀ m, fuel ≤ m → loopCheckFuel h v parent m = some r := by
  intro fuel
  induction fuel with
  | zero => intro parent r hr; simp [loopCheckFuel] at hr
  | succ n ih =>
    intro parent r hr m hm
    obtain ⟨k, rfl⟩ : ∃ k, m = k + (n + 1) := ⟨m - (n + 1), by omega⟩
    rw [show k + (n + 1) = (k + n) + 1 by omega]
    cases hp : (h parent).nspace with
    | none => simp only [loopCheckFuel, hp] at hr ⊢; exact hr
    | some p =>
      simp only [loopCheckFuel, hp] at hr ⊢
      by_cases he : ((h p).identifier == (h v).identifier : Bool)
      · rw [if_pos he] at hr ⊢; exact hr
      · rw [if_neg he] at hr ⊢
        exact ih p r hr (k + n) (by omega)

/-- If the parent chain from `parent` meets, within the given fuel, an object
carrying the identifier of `v`'s object, the loop check raises the loop
`ValueError`. -/
theorem loopCheckFuel_err_of_revisits (h : Nat → NSObj) (v : Nat) :
    ∀ fuel parent, chainRevisits h ((h v).identifier) parent fuel = true →
      loopCheckFuel h v parent fuel =
        some (Except.error (Err.valueError "Namespace.namespace cannot be in a loop")) := by
  intro fuel
  induction fuel with
  | zero => intro parent hr; simp [chainRevisits] at hr
  | succ n ih =>
    intro parent hr
    cases hp : (h parent).nspace with
    | none => simp only [chainRevisits, hp] at hr; exact absurd hr (by simp)
    | some p =>
      simp only [chainRevisits, hp] at hr
      simp only [loopCheckFuel, hp]
      by_cases he : ((h p).identifier == (h v).identifier : Bool)
      · rw [if_pos he]
      · rw [if_neg he]
        rw [Bool.or_eq_true] at hr
        rcases hr with hr | hr
        · exact absurd hr he
        · exact ih p hr

/-- If the parent chain from `parent` reaches `None` within the given fuel
without meeting the identifier of `v`'s object, the loop check returns
without raising. -/
theorem loopCheckFuel_ok_of_dies (h : Nat → NSObj) (v : Nat) :
    ∀ fuel parent, chainReachesNone h parent fuel = true →
      chainRevisits h ((h v).identifier) parent fuel = false →
      loopCheckFuel h v parent fuel = some (Except.ok ()) := by
  intro fuel
  induction fuel with
  | zero => intro parent hd _; simp [chainReachesNone] at hd
  | succ n ih =>
    intro parent hd hr
    cases hp : (h parent).nspace with
    | none => simp only [loopCheckFuel, hp]
    | some p =>
      simp only [chainReachesNone, hp] at hd
      simp only [chainRevisits, hp] at hr
      simp only [loopCheckFuel, hp]
      rw [Bool.or_eq_false_iff] at hr
      rw [if_neg (by simp [hr.1])]
      exact ih p hd hr.2

/-- If the parent chain from `parent` reaches `None` within the given fuel,
the loop check finishes (returning or raising). -/
theorem loopCheckFuel_isSome_of_dies (h : Nat → NSObj) (v : Nat) :
    ∀ fuel parent, chainReachesNone h parent fuel = true →
      (loopCheckFuel h v parent fuel).isSome := by
  intro fuel
  induction fuel with
  | zero => intro parent hd; simp [chainReachesNone] at hd
  | succ n ih =>
    intro parent hd
    cases hp : (h parent).nspace with
    | none => simp only [loopCheckFuel, hp, Option.isSome_some]
    | some p =>
      simp only [chainReachesNone, hp] at hd
      simp only [loopCheckFuel, hp]
      by_cases he : ((h p).identifier == (h v).identifier : Bool)
      · rw [if_pos he]; rfl
      · rw [if_neg he]; exact ih p hd

/-- On a heap object with a version-4 identifier and a parent, `validate()`
reduces to the loop check from the parent. -/
theorem nsValidateFuel_eq_loop (h : Nat → NSObj) (r v : Nat)
    (hver : (h r).identifier.version = 4) (hns : (h r).nspace = some v)
    (fuel : Nat) : nsValidateFuel h r fuel = loopCheckFuel h v v fuel := by
  have hok : validate_uuid (UuidArg.uuid (h r).identifier) false
      "Namespace.identifier" = Except.ok () := by
    simp [validate_uuid, hver]
  simp only [nsValidateFuel, hok, validateNotInLoopFuel, hns]

/-- On a heap object with a version-4 identifier and no parent, `validate()`
returns without raising, whatever the fuel. -/
theorem nsValidateFuel_ok_of_no_parent (h : Nat → NSObj) (r : Nat)
    (hver : (h r).identifier.version = 4) (hns : (h r).nspace = none)
    (fuel : Nat) : nsValidateFuel h r fuel = some (Except.ok ()) := by
  have hok : validate_uuid (UuidArg.uuid (h r).identifier) false
      "Namespace.identifier" = Except.ok () := by
    simp [validate_uuid, hver]
  simp only [nsValidateFuel, hok, validateNotInLoopFuel, hns]

/-! ## Claim theorems -/

/-- C6: for every entity with a frozen identifier field, every assignment to
the identifier field after construction raises the frozen-attribute error,
and the identifier's value observed before and after the failed assignment
is unchanged (the whole instance is unchanged). -/
theorem frozen_identifier_write_raises_unchanged {β : Type}
    (e : BaseEntityWithIdentifier β) (v : PyUUID) :
    (setIdentifier e v).1 = Except.error Err.frozenAttributeError ∧
    (setIdentifier e v).2.identifier = e.identifier ∧
    (setIdentifier e v).2 = e := by
  refine ⟨?_, ?_, ?_⟩ <;> simp [setIdentifier, identifierField, required_field]

/-- C6 witness: a concrete write to the identifier of a constructed entity
fails frozen and leaves the identifier at its original value. -/
theorem frozen_identifier_write_raises_unchanged_witness :
    (setIdentifier ⟨uuidA, ()⟩ uuidB).1 = Except.error Err.frozenAttributeError ∧
    (setIdentifier ⟨uuidA, ()⟩ uuidB).2.identifier = uuidA :=
  ⟨(frozen_identifier_write_raises_unchanged ⟨uuidA, ()⟩ uuidB).1,
    (frozen_identifier_write_raises_unchanged ⟨uuidA, ()⟩ uuidB).2.1⟩

/-- C10: the hash of an entity with identifier is computed from the
identifier alone, while equality additionally requires the same concrete
class: two instances of different classes sharing an identifier have equal
hashes but are not equal, and equal entities always have equal hashes. -/
theorem hash_identifier_only_eq_needs_class (a b : EntityObj) :
    (a.identifier = b.identifier → entityHash a = entityHash b) ∧
    (a.cls ≠ b.cls → a.identifier = b.identifier →
      entityHash a = entityHash b ∧ entityEq a b = false) ∧
    (entityEq a b = true → entityHash a = entityHash b) := by
  refine ⟨?_, ?_, ?_⟩
  · intro hid
    simp [entityHash, hid]
  · intro hcls hid
    refine ⟨by simp [entityHash, hid], ?_⟩
    simp [entityEq, hcls]
  · intro heq
    simp only [entityEq, Bool.and_eq_true, beq_iff_eq] at heq
    simp [entityHash, heq.2]

/-- C10 witness: a `Namespace`-class and a `Repository`-class instance with
the same identifier hash identically yet are not equal. -/
theorem hash_identifier_only_eq_needs_class_witness :
    entityHash ⟨"Namespace", ⟨1, 4⟩, []⟩ = entityHash ⟨"Repository", ⟨1, 4⟩, []⟩ ∧
    entityEq ⟨"Namespace", ⟨1, 4⟩, []⟩ ⟨"Repository", ⟨1, 4⟩, []⟩ = false :=
  (hash_identifier_only_eq_needs_class ⟨"Namespace", ⟨1, 4⟩, []⟩
    ⟨"Repository", ⟨1, 4⟩, []⟩).2.1 (by decide) rfl

/-- C8 counterexample: `validate_uuid` on a UUID instance whose version is 1
(correct type, failed domain rule) with `none_allowed=False` raises
`TypeError`, not `ValueError` — refuting the claim that this semantic
violation raises `ValueError`. -/
theorem validate_uuid_nonv4_raises_typeError :
    validate_uuid (UuidArg.uuid ⟨7, 1⟩) false "MyEntity.my_field" =
      Except.error (Err.typeError "MyEntity.my_field must be a UUID version 4") ∧
    raisedValueError (validate_uuid (UuidArg.uuid ⟨7, 1⟩) false "MyEntity.my_field") =
      false :=
  ⟨rfl, rfl⟩

/-- C8 amended: semantic violations of the positive-integer rule raise
`ValueError`, but a UUID instance whose version is not 4, passed to
`validate_uuid` with `none_allowed=False`, raises `TypeError` (as the
validator's own docstring states), not `ValueError`. -/
theorem semantic_violation_error_kinds (n : Int) (u : PyUUID) (d : String)
    (hn : n ≤ 0) (hu : u.version ≠ 4) :
    validate_positive_integer (IntArg.int n) false d =
      Except.error (Err.valueError (d ++ " must be a positive integer")) ∧
    validate_uuid (UuidArg.uuid u) false d =
      Except.error (Err.typeError (d ++ " must be a UUID version 4")) := by
  constructor
  · simp [validate_positive_integer, hn]
  · simp [validate_uuid, hu]

/-- C8 amended, witness at `n = 0` and a version-1 UUID. -/
theorem semantic_violation_error_kinds_witness :
    (0 : Int) ≤ 0 ∧ (⟨7, 1⟩ : PyUUID).version ≠ 4 ∧
    validate_positive_integer (IntArg.int 0) false "f" =
      Except.error (Err.valueError "f must be a positive integer") ∧
    validate_uuid (UuidArg.uuid ⟨7, 1⟩) false "f" =
      Except.error (Err.typeError "f must be a UUID version 4") :=
  ⟨by decide, by decide,
    (semantic_violation_error_kinds 0 ⟨7, 1⟩ "f" (by decide) (by decide)).1,
    (semantic_violation_error_kinds 0 ⟨7, 1⟩ "f" (by decide) (by decide)).2⟩

/-- C1: starting from an empty in-memory repository, `add e1` succeeds; a
second `add e2` with the same identifier (any valid entity, distinct object
or not) raises `UniquenessError` and leaves the collection unchanged: still
of size 1, containing `e1`. -/
theorem add_duplicate_identifier_unchanged {α : Type} (M : EntityModel α)
    (e1 e2 : α)
    (hv1 : M.validate e1 = Except.ok ()) (hv2 : M.validate e2 = Except.ok ())
    (hid : M.identifier e2 = M.identifier e1) :
    repoAdd M [] e1 = (Except.ok e1, [e1]) ∧
    (repoAdd M [e1] e2).1 = Except.error (Err.uniquenessError
      ("One already exists with identifier=" ++ uuidStr (M.identifier e2))) ∧
    (repoAdd M [e1] e2).2 = [e1] := by
  refine ⟨?_, ?_, ?_⟩ <;>
    simp [repoAdd, hv1, hv2, repoExists, hid]

/-- C1 witness: two distinct `Namespace` objects sharing `uuidA`. -/
theorem add_duplicate_identifier_unchanged_witness :
    nsModel.validate nsAcme = Except.ok () ∧
    nsModel.validate nsAcmeTwin = Except.ok () ∧
    nsModel.identifier nsAcmeTwin = nsModel.identifier nsAcme ∧
    repoAdd nsModel [] nsAcme = (Except.ok nsAcme, [nsAcme]) ∧
    (repoAdd nsModel [nsAcme] nsAcmeTwin).1 = Except.error (Err.uniquenessError
      ("One already exists with identifier=" ++ uuidStr (nsModel.identifier nsAcmeTwin))) ∧
    (repoAdd nsModel [nsAcme] nsAcmeTwin).2 = [nsAcme] :=
  ⟨rfl, rfl, rfl,
    (add_duplicate_identifier_unchanged nsModel nsAcme nsAcmeTwin rfl rfl rfl).1,
    (add_duplicate_identifier_unchanged nsModel nsAcme nsAcmeTwin rfl rfl rfl).2.1,
    (add_duplicate_identifier_unchanged nsModel nsAcme nsAcmeTwin rfl rfl rfl).2.2⟩

/-- C2: round-trip — adding a valid entity whose identifier is not yet
present, then `get` with that identifier, returns the very entity added
(hence one equal to it under class-and-identifier equality). -/
theorem add_get_roundtrip {α : Type} (M : EntityModel α) (coll : List α) (e : α)
    (hv : M.validate e = Except.ok ())
    (hex : repoExists M coll (M.identifier e) = false) :
    (repoAdd M coll e).1 = Except.ok e ∧
    repoGet M (repoAdd M coll e).2 (M.identifier e) = Except.ok e := by
  constructor
  · simp [repoAdd, hv, hex]
  · simp [repoAdd, hv, hex, repoGet]

/-- C2 witness: `nsAcme` round-trips through an empty repository. -/
theorem add_get_roundtrip_witness :
    nsModel.validate nsAcme = Except.ok () ∧
    repoExists nsModel [] (nsModel.identifier nsAcme) = false ∧
    (repoAdd nsModel [] nsAcme).1 = Except.ok nsAcme ∧
    repoGet nsModel (repoAdd nsModel [] nsAcme).2 (nsModel.identifier nsAcme) =
      Except.ok nsAcme :=
  ⟨rfl, rfl,
    (add_get_roundtrip nsModel [] nsAcme rfl rfl).1,
    (add_get_roundtrip nsModel [] nsAcme rfl rfl).2⟩

/-- C9: `delete` locates the stored entity by identifier alone — for a
collection holding exactly one entity with `e`'s identifier, `delete e2`
with `e2.identifier == e.identifier` (other fields arbitrary, entity not
even validated) succeeds, removes the entity with that identifier and keeps
all others; an immediately repeated `delete e2` raises `NotFoundError` and
leaves the collection unchanged. -/
theorem delete_locates_by_identifier_alone {α : Type} (M : EntityModel α)
    (coll : List α) (e e2 : α)
    (hcount : coll.countP (fun x => M.identifier x == M.identifier e) = 1)
    (hid : M.identifier e2 = M.identifier e) :
    (repoDelete M coll e2).1 = Except.ok () ∧
    repoExists M (repoDelete M coll e2).2 (M.identifier e) = false ∧
    (∀ f ∈ coll, M.identifier f ≠ M.identifier e → f ∈ (repoDelete M coll e2).2) ∧
    (repoDelete M (repoDelete M coll e2).2 e2).1 = Except.error (Err.notFoundError
      ("Unable to find one with identifier=" ++ uuidStr (M.identifier e2))) ∧
    (repoDelete M (repoDelete M coll e2).2 e2).2 = (repoDelete M coll e2).2 := by
  have hpos : 0 < coll.countP (fun x => M.identifier x == M.identifier e) := by omega
  rw [List.countP_pos_iff] at hpos
  obtain ⟨a, ha, hpa⟩ := hpos
  obtain ⟨found, hfd⟩ :
      ∃ x, coll.find? (fun x => M.identifier x == M.identifier e) = some x :=
    Option.isSome_iff_exists.mp (List.find?_isSome.mpr ⟨a, ha, hpa⟩)
  have hidf : M.identifier found = M.identifier e :=
    eq_of_beq (List.find?_some (p := fun x => M.identifier x == M.identifier e) hfd)
  have hget : repoGet M coll (M.identifier e2) = Except.ok found := by
    rw [repoGet, hid, hfd]
  have hdel : repoDelete M coll e2 =
      (Except.ok (), coll.eraseP (fun x => M.identifier x == M.identifier e)) := by
    rw [repoDelete, hget]
    simp only [collRemove]
    rw [hidf]
  have hany : (coll.eraseP (fun x => M.identifier x == M.identifier e)).any
      (fun x => M.identifier x == M.identifier e) = false :=
    any_eraseP_eq_false _ coll (by omega)
  have hfind2 : (coll.eraseP (fun x => M.identifier x == M.identifier e)).find?
      (fun x => M.identifier x == M.identifier e) = none := by
    rw [List.find?_eq_none]
    rw [List.any_eq_false] at hany
    exact hany
  have hget2 : repoGet M (coll.eraseP (fun x => M.identifier x == M.identifier e))
      (M.identifier e2) = Except.error (Err.notFoundError
        ("Unable to find one with identifier=" ++ uuidStr (M.identifier e2))) := by
    rw [repoGet, hid, hfind2]
  refine ⟨by rw [hdel], ?_, ?_, ?_, ?_⟩
  · rw [hdel]
    exact hany
  · intro f hfmem hfne
    rw [hdel]
    exact (List.mem_eraseP_of_neg (by simp [hfne])).mpr hfmem
  · rw [hdel]
    simp only [repoDelete]
    rw [hget2]
  · rw [hdel]
    simp only [repoDelete]
    rw [hget2]

/-- C9 witness: deleting via a same-identifier, different-fields object from
a two-element collection. -/
theorem delete_locates_by_identifier_alone_witness :
    [nsAcme, nsBeta].countP
      (fun x => nsModel.identifier x == nsModel.identifier nsAcme) = 1 ∧
    nsModel.identifier nsAcmeTwin = nsModel.identifier nsAcme ∧
    (repoDelete nsModel [nsAcme, nsBeta] nsAcmeTwin).1 = Except.ok () ∧
    repoExists nsModel (repoDelete nsModel [nsAcme, nsBeta] nsAcmeTwin).2
      (nsModel.identifier nsAcme) = false ∧
    (repoDelete nsModel (repoDelete nsModel [nsAcme, nsBeta] nsAcmeTwin).2
      nsAcmeTwin).1 = Except.error (Err.notFoundError
        ("Unable to find one with identifier=" ++
          uuidStr (nsModel.identifier nsAcmeTwin))) :=
  ⟨rfl, rfl,
    (delete_locates_by_identifier_alone nsModel [nsAcme, nsBeta] nsAcme
      nsAcmeTwin rfl rfl).1,
    (delete_locates_by_identifier_alone nsModel [nsAcme, nsBeta] nsAcme
      nsAcmeTwin rfl rfl).2.1,
    (delete_locates_by_identifier_alone nsModel [nsAcme, nsBeta] nsAcme
      nsAcmeTwin rfl rfl).2.2.2.1⟩

/-- C3: `update` is validate, then delete, then add, and is not atomic — in
a state holding the entity's identifier (exactly once) together with a
different entity `f` sharing the new name and parent scope, `update` raises
`UniquenessError` and leaves the entity absent from the collection: the old
version was removed and not restored. -/
theorem update_delete_then_add_not_atomic (coll : List Namespace)
    (e f : Namespace)
    (hv : Namespace.validate e = Except.ok ())
    (hcount : coll.countP
      (fun x => nsModel.identifier x == nsModel.identifier e) = 1)
    (hf : f ∈ coll) (hfid : nsModel.identifier f ≠ nsModel.identifier e)
    (hfname : f.name = e.name) (hfns : optNsEq f.nspace e.nspace = true) :
    (∃ m, (nsRepoUpdate coll e).1 = Except.error (Err.uniquenessError m)) ∧
    repoExists nsModel (nsRepoUpdate coll e).2 (nsModel.identifier e) = false := by
  have hpos : 0 < coll.countP
      (fun x => nsModel.identifier x == nsModel.identifier e) := by omega
  rw [List.countP_pos_iff] at hpos
  obtain ⟨a, ha, hpa⟩ := hpos
  obtain ⟨found, hfd⟩ : ∃ x, coll.find?
      (fun x => nsModel.identifier x == nsModel.identifier e) = some x :=
    Option.isSome_iff_exists.mp (List.find?_isSome.mpr ⟨a, ha, hpa⟩)
  have hidf : nsModel.identifier found = nsModel.identifier e :=
    eq_of_beq (List.find?_some
      (p := fun x => nsModel.identifier x == nsModel.identifier e) hfd)
  have hget : repoGet nsModel coll (nsModel.identifier e) = Except.ok found := by
    rw [repoGet, hfd]
  have hdel : repoDelete nsModel coll e =
      (Except.ok (), coll.eraseP
        (fun x => nsModel.identifier x == nsModel.identifier e)) := by
    rw [repoDelete, hget]
    simp only [collRemove]
    rw [hidf]
  have hfmem : f ∈ coll.eraseP
      (fun x => nsModel.identifier x == nsModel.identifier e) :=
    (List.mem_eraseP_of_neg (by simp [hfid])).mpr hf
  have hcheck : (nsForNamespace (coll.eraseP
      (fun x => nsModel.identifier x == nsModel.identifier e)) e.nspace).any
        (fun n => n.name == e.name) = true := by
    rw [List.any_eq_true]
    exact ⟨f, List.mem_filter.mpr ⟨hfmem, hfns⟩, by simp [hfname]⟩
  have hupd : nsRepoUpdate coll e = (Except.error (Err.uniquenessError
      ("One already exists with name=" ++ e.name ++ " and namespace=...")),
      coll.eraseP (fun x => nsModel.identifier x == nsModel.identifier e)) := by
    rw [nsRepoUpdate]
    show (match nsModel.validate e with
      | Except.error err => (Except.error err, coll)
      | Except.ok () =>
          match repoDelete nsModel coll e with
          | (Except.error err, c) => (Except.error err, c)
          | (Except.ok (), c) => nsRepoAdd c e) = _
    rw [show nsModel.validate e = Except.ok () from hv, hdel]
    simp only [nsRepoAdd]
    rw [if_pos hcheck]
  constructor
  · exact ⟨_, by rw [hupd]⟩
  · rw [hupd]
    exact any_eraseP_eq_false _ coll (by omega)

/-- C3 witness: renaming `nsAcme` to `"beta"` while `nsBeta` occupies that
name in the root scope: the update fails and the entity is gone. -/
theorem update_delete_then_add_not_atomic_witness :
    Namespace.validate nsAcmeRenamedBeta = Except.ok () ∧
    [nsAcme, nsBeta].countP (fun x =>
      nsModel.identifier x == nsModel.identifier nsAcmeRenamedBeta) = 1 ∧
    nsBeta ∈ [nsAcme, nsBeta] ∧
    nsModel.identifier nsBeta ≠ nsModel.identifier nsAcmeRenamedBeta ∧
    (∃ m, (nsRepoUpdate [nsAcme, nsBeta] nsAcmeRenamedBeta).1 =
      Except.error (Err.uniquenessError m)) ∧
    repoExists nsModel (nsRepoUpdate [nsAcme, nsBeta] nsAcmeRenamedBeta).2
      (nsModel.identifier nsAcmeRenamedBeta) = false :=
  ⟨rfl, rfl, List.Mem.tail _ (List.Mem.head _), by decide,
    (update_delete_then_add_not_atomic [nsAcme, nsBeta] nsAcmeRenamedBeta nsBeta
      rfl rfl (List.Mem.tail _ (List.Mem.head _)) (by decide) rfl rfl).1,
    (update_delete_then_add_not_atomic [nsAcme, nsBeta] nsAcmeRenamedBeta nsBeta
      rfl rfl (List.Mem.tail _ (List.Mem.head _)) (by decide) rfl rfl).2⟩

/-- C7: domain uniqueness in the Namespace and Repository in-memory
repositories — adding a second entity with the same name and the same parent
scope (same parent namespace, including both `None` for namespaces) as a
stored entity raises `UniquenessError` and leaves the collection unchanged,
while adding an entity with the same name under a different parent scope
(valid, fresh identifier, no same-scope name collision) succeeds. -/
theorem domain_uniqueness_same_name_parent
    (coll : List Namespace) (e1 e2 e3 : Namespace)
    (h1 : e1 ∈ coll)
    (h2name : e1.name = e2.name) (h2ns : optNsEq e1.nspace e2.nspace = true)
    (h3v : Namespace.validate e3 = Except.ok ())
    (h3id : repoExists nsModel coll (nsModel.identifier e3) = false)
    (h3nocol : ∀ n ∈ coll, optNsEq n.nspace e3.nspace = true → n.name ≠ e3.name)
    (rcoll : List RepoEntity) (r1 r2 r3 : RepoEntity)
    (g1 : r1 ∈ rcoll)
    (g2name : r1.name = r2.name) (g2ns : nsEq r1.nspace r2.nspace = true)
    (g3v : RepoEntity.validate r3 = Except.ok ())
    (g3id : repoExists rrModel rcoll (rrModel.identifier r3) = false)
    (g3nocol : ∀ r ∈ rcoll, nsEq r.nspace r3.nspace = true → r.name ≠ r3.name) :
    ((∃ m, (nsRepoAdd coll e2).1 = Except.error (Err.uniquenessError m)) ∧
      (nsRepoAdd coll e2).2 = coll) ∧
    ((nsRepoAdd coll e3).1 = Except.ok e3 ∧
      (nsRepoAdd coll e3).2 = e3 :: coll) ∧
    ((∃ m, (rrRepoAdd rcoll r2).1 = Except.error (Err.uniquenessError m)) ∧
      (rrRepoAdd rcoll r2).2 = rcoll) ∧
    ((rrRepoAdd rcoll r3).1 = Except.ok r3 ∧
      (rrRepoAdd rcoll r3).2 = r3 :: rcoll) := by
  have hcheck2 : (nsForNamespace coll e2.nspace).any
      (fun n => n.name == e2.name) = true := by
    rw [List.any_eq_true]
    exact ⟨e1, List.mem_filter.mpr ⟨h1, h2ns⟩, by simp [h2name]⟩
  have hcheck3 : (nsForNamespace coll e3.nspace).any
      (fun n => n.name == e3.name) = false := by
    rw [List.any_eq_false]
    intro x hx
    rcases List.mem_filter.mp hx with ⟨hxm, hxns⟩
    simpa using h3nocol x hxm hxns
  have gcheck2 : (rrForNamespace rcoll r2.nspace).any
      (fun r => r.name == r2.name) = true := by
    rw [List.any_eq_true]
    exact ⟨r1, List.mem_filter.mpr ⟨g1, g2ns⟩, by simp [g2name]⟩
  have gcheck3 : (rrForNamespace rcoll r3.nspace).any
      (fun r => r.name == r3.name) = false := by
    rw [List.any_eq_false]
    intro x hx
    rcases List.mem_filter.mp hx with ⟨hxm, hxns⟩
    simpa using g3nocol x hxm hxns
  have hns2 : nsRepoAdd coll e2 = (Except.error (Err.uniquenessError
      ("One already exists with name=" ++ e2.name ++ " and namespace=...")), coll) := by
    simp only [nsRepoAdd]
    rw [if_pos hcheck2]
  have hns3 : nsRepoAdd coll e3 = (Except.ok e3, e3 :: coll) := by
    simp only [nsRepoAdd]
    rw [if_neg (by simp [hcheck3])]
    simp only [repoAdd, nsModel]
    simp only [nsModel] at h3id
    rw [h3v, h3id]
    simp
  have hrr2 : rrRepoAdd rcoll r2 = (Except.error (Err.uniquenessError
      ("One already exists with name=" ++ r2.name ++ " and namespace=...")), rcoll) := by
    simp only [rrRepoAdd]
    rw [if_pos gcheck2]
  have hrr3 : rrRepoAdd rcoll r3 = (Except.ok r3, r3 :: rcoll) := by
    simp only [rrRepoAdd]
    rw [if_neg (by simp [gcheck3])]
    simp only [repoAdd, rrModel]
    simp only [rrModel] at g3id
    rw [g3v, g3id]
    simp
  exact ⟨⟨⟨_, by rw [hns2]⟩, by rw [hns2]⟩, ⟨by rw [hns3], by rw [hns3]⟩,
    ⟨⟨_, by rw [hrr2]⟩, by rw [hrr2]⟩, ⟨by rw [hrr3], by rw [hrr3]⟩⟩

/-- C7 witness: `nsAcmeDup` collides with stored `nsAcme` (same name, root
scope) while `nsAcmeInBeta` (same name, under `nsBeta`) is accepted; same
pattern for `Repository` entities around `repoFoo`. -/
theorem domain_uniqueness_same_name_parent_witness :
    nsAcme ∈ [nsAcme] ∧ nsAcme.name = nsAcmeDup.name ∧
    optNsEq nsAcme.nspace nsAcmeDup.nspace = true ∧
    Namespace.validate nsAcmeInBeta = Except.ok () ∧
    repoExists nsModel [nsAcme] (nsModel.identifier nsAcmeInBeta) = false ∧
    (∃ m, (nsRepoAdd [nsAcme] nsAcmeDup).1 =
      Except.error (Err.uniquenessError m)) ∧
    (nsRepoAdd [nsAcme] nsAcmeDup).2 = [nsAcme] ∧
    (nsRepoAdd [nsAcme] nsAcmeInBeta).1 = Except.ok nsAcmeInBeta ∧
    (∃ m, (rrRepoAdd [repoFoo] repoFooDup).1 =
      Except.error (Err.uniquenessError m)) ∧
    (rrRepoAdd [repoFoo] repoFooDup).2 = [repoFoo] ∧
    (rrRepoAdd [repoFoo] repoFooInBeta).1 = Except.ok repoFooInBeta := by
  have h3nocol : ∀ n ∈ [nsAcme],
      optNsEq n.nspace nsAcmeInBeta.nspace = true → n.name ≠ nsAcmeInBeta.name := by
    intro n hn hcontra
    rcases List.mem_singleton.mp hn with rfl
    rw [show optNsEq nsAcme.nspace nsAcmeInBeta.nspace = false from rfl] at hcontra
    exact absurd hcontra (by decide)
  have g3nocol : ∀ r ∈ [repoFoo],
      nsEq r.nspace repoFooInBeta.nspace = true → r.name ≠ repoFooInBeta.name := by
    intro r hr hcontra
    rcases List.mem_singleton.mp hr with rfl
    rw [show nsEq repoFoo.nspace repoFooInBeta.nspace = false from rfl] at hcontra
    exact absurd hcontra (by decide)
  have main := domain_uniqueness_same_name_parent [nsAcme] nsAcme nsAcmeDup
    nsAcmeInBeta (List.Mem.head _) rfl rfl rfl rfl h3nocol
    [repoFoo] repoFoo repoFooDup repoFooInBeta (List.Mem.head _) rfl rfl rfl rfl
    g3nocol
  exact ⟨List.Mem.head _, rfl, rfl, rfl, rfl,
    main.1.1, main.1.2, main.2.1.1, main.2.2.1.1, main.2.2.1.2, main.2.2.2.1⟩

/-- On a heap object with a parent whose chain dies without revisiting the
parent, `validate()` returns without raising, for any sufficient fuel. -/
theorem nsValidate_ok_of_chain (h : Nat → NSObj) (y v n fuel : Nat)
    (hver : (h y).identifier.version = 4) (hns : (h y).nspace = some v)
    (hd : chainReachesNone h v n = true)
    (hr : chainRevisits h ((h v).identifier) v n = false)
    (hf : n ≤ fuel) :
    nsValidateFuel h y fuel = some (Except.ok ()) := by
  rw [nsValidateFuel_eq_loop h y v hver hns]
  exact loopCheckFuel_mono h v n v _ (loopCheckFuel_ok_of_dies h v n v hd hr) fuel hf

/-- On a heap object with a parent whose chain revisits the parent,
`validate()` raises the loop `ValueError`, for any sufficient fuel. -/
theorem nsValidate_err_of_revisit (h : Nat → NSObj) (y v n fuel : Nat)
    (hver : (h y).identifier.version = 4) (hns : (h y).nspace = some v)
    (hr : chainRevisits h ((h v).identifier) v n = true)
    (hf : n ≤ fuel) :
    nsValidateFuel h y fuel = some (Except.error
      (Err.valueError "Namespace.namespace cannot be in a loop")) := by
  rw [nsValidateFuel_eq_loop h y v hver hns]
  exact loopCheckFuel_mono h v n v _ (loopCheckFuel_err_of_revisits h v n v hr) fuel hf

/-- C4 counterexample: on the heap `hCyc`, object 0's parent chain is
1 → 2 → 3 → 2 → 3 → ⋯ — a cycle that does not pass through object 1 (the
value of the `namespace` field) — and `Namespace.validate()` on object 0
never finishes: the validator's `while` loop diverges, refuting "every
operation either returns a value or raises synchronously". -/
theorem validate_diverges_on_cycle_off_value :
    ¬ nsValidateTerminates hCyc 0 := by
  have step2 : ∀ n, loopCheckFuel hCyc 1 2 (n + 1) = loopCheckFuel hCyc 1 3 n :=
    fun n => rfl
  have step3 : ∀ n, loopCheckFuel hCyc 1 3 (n + 1) = loopCheckFuel hCyc 1 2 n :=
    fun n => rfl
  have hinv : ∀ n, loopCheckFuel hCyc 1 2 n = none ∧
      loopCheckFuel hCyc 1 3 n = none := by
    intro n
    induction n with
    | zero => exact ⟨rfl, rfl⟩
    | succ m ih => exact ⟨(step2 m).trans ih.2, (step3 m).trans ih.1⟩
  rintro ⟨fuel, hs⟩
  cases fuel with
  | zero =>
    rw [show nsValidateFuel hCyc 0 0 = none from rfl] at hs
    simp at hs
  | succ n =>
    rw [show nsValidateFuel hCyc 0 (n + 1) = loopCheckFuel hCyc 1 2 n from rfl,
      (hinv n).1] at hs
    simp at hs

/-- C4 amended: `Namespace.validate()` (on a valid-identifier object)
terminates — the loop check finishes within the given fuel — whenever the
`namespace` field is `None`, or the parent chain from its value reaches
`None`, or the chain revisits the value itself; on a cycle that does not
pass through the value, the loop diverges (see the counterexample). -/
theorem validate_loop_terminates_of_chain_ends (h : Nat → NSObj) (r : Nat)
    (fuel : Nat)
    (hcond : (h r).nspace = none ∨
      ∃ v, (h r).nspace = some v ∧
        (chainReachesNone h v fuel = true ∨
          chainRevisits h ((h v).identifier) v fuel = true))
    (hver : (h r).identifier.version = 4) :
    (nsValidateFuel h r fuel).isSome := by
  rcases hcond with hnone | ⟨v, hv, hcase⟩
  · rw [nsValidateFuel_ok_of_no_parent h r hver hnone]
    rfl
  · rw [nsValidateFuel_eq_loop h r v hver hv]
    rcases hcase with hd | hr
    · exact loopCheckFuel_isSome_of_dies h v fuel v hd
    · rw [loopCheckFuel_err_of_revisits h v fuel v hr]
      rfl

/-- C4 amended, witness: on `hABC`, object 1's chain revisits its parent
(object 2) within 3 steps, so `validate()` finishes with fuel 3. -/
theorem validate_loop_terminates_of_chain_ends_witness :
    (hABC 1).nspace = some 2 ∧
    chainRevisits hABC ((hABC 2).identifier) 2 3 = true ∧
    (hABC 1).identifier.version = 4 ∧
    (nsValidateFuel hABC 1 3).isSome :=
  ⟨rfl, rfl, rfl,
    validate_loop_terminates_of_chain_ends hABC 1 3
      (Or.inr ⟨2, rfl, Or.inr rfl⟩) rfl⟩

/-- C5: for every chain of three namespaces A → B → C → A over the
self-referential `namespace` field (distinct, version-4 identifiers),
`validate()` on any of the three raises the loop `ValueError`; breaking the
cycle by setting any one of the three links to `None` makes `validate()`
succeed on all three. -/
theorem cycle_of_three_validate_raises_and_break_restores
    (h : Nat → NSObj) (a b c : Nat)
    (hab : (h a).nspace = some b) (hbc : (h b).nspace = some c)
    (hca : (h c).nspace = some a)
    (v4a : (h a).identifier.version = 4) (v4b : (h b).identifier.version = 4)
    (v4c : (h c).identifier.version = 4)
    (dab : (h a).identifier ≠ (h b).identifier)
    (dbc : (h b).identifier ≠ (h c).identifier)
    (dca : (h c).identifier ≠ (h a).identifier) :
    (∀ fuel, 3 ≤ fuel →
      nsValidateFuel h a fuel = some (Except.error
        (Err.valueError "Namespace.namespace cannot be in a loop")) ∧
      nsValidateFuel h b fuel = some (Except.error
        (Err.valueError "Namespace.namespace cannot be in a loop")) ∧
      nsValidateFuel h c fuel = some (Except.error
        (Err.valueError "Namespace.namespace cannot be in a loop"))) ∧
    (∀ x, (x = a ∨ x = b ∨ x = c) → ∀ fuel, 3 ≤ fuel →
      nsValidateFuel (setNspaceNone h x) a fuel = some (Except.ok ()) ∧
      nsValidateFuel (setNspaceNone h x) b fuel = some (Except.ok ()) ∧
      nsValidateFuel (setNspaceNone h x) c fuel = some (Except.ok ())) := by
  have fab : ((h a).identifier == (h b).identifier) = false := by simp [dab]
  have fba : ((h b).identifier == (h a).identifier) = false := by
    simp [Ne.symm dab]
  have fbc : ((h b).identifier == (h c).identifier) = false := by simp [dbc]
  have fcb : ((h c).identifier == (h b).identifier) = false := by
    simp [Ne.symm dbc]
  have fca : ((h c).identifier == (h a).identifier) = false := by simp [dca]
  have fac : ((h a).identifier == (h c).identifier) = false := by
    simp [Ne.symm dca]
  have nab : a ≠ b := fun hq => dab (by rw [hq])
  have nbc : b ≠ c := fun hq => dbc (by rw [hq])
  have nca : c ≠ a := fun hq => dca (by rw [hq])
  have hset_eq : ∀ x z, z ≠ x → setNspaceNone h x z = h z := by
    intro x z hz
    simp [setNspaceNone, hz]
  have hset_id : ∀ x, (setNspaceNone h x x).identifier = (h x).identifier := by
    intro x
    simp [setNspaceNone]
  have hset_ns : ∀ x, (setNspaceNone h x x).nspace = none := by
    intro x
    simp [setNspaceNone]
  constructor
  · intro fuel hf
    refine ⟨?_, ?_, ?_⟩
    · exact nsValidate_err_of_revisit h a b 3 fuel v4a hab
        (by simp [chainRevisits, hbc, hca, hab, fcb, fab]) hf
    · exact nsValidate_err_of_revisit h b c 3 fuel v4b hbc
        (by simp [chainRevisits, hca, hab, hbc, fac, fbc]) hf
    · exact nsValidate_err_of_revisit h c a 3 fuel v4c hca
        (by simp [chainRevisits, hab, hbc, hca, fba, fca]) hf
  · rintro x (rfl | rfl | rfl) fuel hf
    · have e_b : setNspaceNone h x b = h b := hset_eq x b (Ne.symm nab)
      have e_c : setNspaceNone h x c = h c := hset_eq x c nca
      refine ⟨?_, ?_, ?_⟩
      · exact nsValidateFuel_ok_of_no_parent (setNspaceNone h x) x
          (by rw [hset_id]; exact v4a) (hset_ns x) fuel
      · exact nsValidate_ok_of_chain (setNspaceNone h x) b c 3 fuel
          (by rw [e_b]; exact v4b) (by rw [e_b]; exact hbc)
          (by simp [chainReachesNone, e_c, hset_ns, hca])
          (by simp [chainRevisits, e_c, hset_ns, hset_id, hca, fac]) hf
      · exact nsValidate_ok_of_chain (setNspaceNone h x) c x 3 fuel
          (by rw [e_c]; exact v4c) (by rw [e_c]; exact hca)
          (by simp [chainReachesNone, hset_ns])
          (by simp [chainRevisits, hset_ns]) hf
    · have e_a : setNspaceNone h x a = h a := hset_eq x a nab
      have e_c : setNspaceNone h x c = h c := hset_eq x c (Ne.symm nbc)
      refine ⟨?_, ?_, ?_⟩
      · exact nsValidate_ok_of_chain (setNspaceNone h x) a x 3 fuel
          (by rw [e_a]; exact v4a) (by rw [e_a]; exact hab)
          (by simp [chainReachesNone, hset_ns])
          (by simp [chainRevisits, hset_ns]) hf
      · exact nsValidateFuel_ok_of_no_parent (setNspaceNone h x) x
          (by rw [hset_id]; exact v4b) (hset_ns x) fuel
      · exact nsValidate_ok_of_chain (setNspaceNone h x) c a 3 fuel
          (by rw [e_c]; exact v4c) (by rw [e_c]; exact hca)
          (by simp [chainReachesNone, e_a, hset_ns, hab])
          (by simp [chainRevisits, e_a, hset_ns, hset_id, hab, fba]) hf
    · have e_a : setNspaceNone h x a = h a := hset_eq x a (Ne.symm nca)
      have e_b : setNspaceNone h x b = h b := hset_eq x b nbc
      refine ⟨?_, ?_, ?_⟩
      · exact nsValidate_ok_of_chain (setNspaceNone h x) a b 3 fuel
          (by rw [e_a]; exact v4a) (by rw [e_a]; exact hab)
          (by simp [chainReachesNone, e_b, hset_ns, hbc])
          (by simp [chainRevisits, e_b, hset_ns, hset_id, hbc, fcb]) hf
      · exact nsValidate_ok_of_chain (setNspaceNone h x) b x 3 fuel
          (by rw [e_b]; exact v4b) (by rw [e_b]; exact hbc)
          (by simp [chainReachesNone, hset_ns])
          (by simp [chainRevisits, hset_ns]) hf
      · exact nsValidateFuel_ok_of_no_parent (setNspaceNone h x) x
          (by rw [hset_id]; exact v4c) (hset_ns x) fuel

/-- C5 witness: the concrete cycle `hABC` at references 1, 2, 3: validation
raises on all three; breaking the link of object 3 makes all three pass. -/
theorem cycle_of_three_validate_witness :
    (hABC 1).nspace = some 2 ∧ (hABC 2).nspace = some 3 ∧
    (hABC 3).nspace = some 1 ∧
    nsValidateFuel hABC 1 3 = some (Except.error
      (Err.valueError "Namespace.namespace cannot be in a loop")) ∧
    nsValidateFuel hABC 2 3 = some (Except.error
      (Err.valueError "Namespace.namespace cannot be in a loop")) ∧
    nsValidateFuel hABC 3 3 = some (Except.error
      (Err.valueError "Namespace.namespace cannot be in a loop")) ∧
    nsValidateFuel (setNspaceNone hABC 3) 1 3 = some (Except.ok ()) ∧
    nsValidateFuel (setNspaceNone hABC 3) 2 3 = some (Except.ok ()) ∧
    nsValidateFuel (setNspaceNone hABC 3) 3 3 = some (Except.ok ()) :=
  have main := cycle_of_three_validate_raises_and_break_restores hABC 1 2 3
    rfl rfl rfl rfl rfl rfl (by decide) (by decide) (by decide)
  ⟨rfl, rfl, rfl,
    (main.1 3 (by decide)).1, (main.1 3 (by decide)).2.1,
    (main.1 3 (by decide)).2.2,
    (main.2 3 (Or.inr (Or.inr rfl)) 3 (by decide)).1,
    (main.2 3 (Or.inr (Or.inr rfl)) 3 (by decide)).2.1,
    (main.2 3 (Or.inr (Or.inr rfl)) 3 (by decide)).2.2⟩

end Isshub
